import Mathlib

/-!
Verification of the feed monitoring and delivery engine
(`src/core/state.py`, `src/core/monitor.py`).

Shallow embedding conventions:
* Python `datetime` instants are modelled as abstract `Nat` values; the
  `isoformat`/`fromisoformat` pair is a bijection between datetimes and their
  (always non-empty) ISO strings, so the persisted form of a timestamp is
  modelled by the instant itself.
* Python strings are Lean `String`s; `len` is `String.length`
  (both count unicode code points) and `s[:n]` is `String.mk (s.data.take n)`.
* Fallible collaborator calls are modelled by `Except`/sum-typed outcomes;
  every `try/except` of the source becomes an explicit branch.
* `asyncio` concurrency is flattened: a per-feed check cycle is a pure
  function of the feed's state and of the outcomes the collaborators
  (fetcher, processing pipeline, transport) produce during that cycle.
  The shutdown event is modelled as the sequence of values the cycle's
  per-iteration `is_set()` observations return.
-/

namespace RssEngine

/-! ## `src/core/state.py` -/

/-- Python `MAX_PROCESSED_ENTRIES_PER_FEED = 100` (state.py:11). -/
def MAX_PROCESSED_ENTRIES_PER_FEED : Nat := 100

/-- Python `FeedState` dataclass (state.py:14-22).  `last_check` is an abstract
instant (`none` = Python `None`), `error_count` mirrors a Python `int`. -/
structure FeedState where
  last_check : Option Nat := none
  processed_entries : List String := []
  etag : Option String := none
  last_modified : Option String := none
  error_count : Int := 0
  feed_title : Option String := none
  feed_link : Option String := none
deriving Repr, DecidableEq

/-- The freshly-created state `FeedState()` (state.py:86). -/
def FeedState.empty : FeedState := {}

/-- The dictionary produced by `FeedState.to_dict` (state.py:24-37): the
persisted record layout.  The `last_check` field holds the instant whose
ISO string the Python dict stores (the coding is bijective, see above). -/
structure FeedStateDict where
  last_check : Option Nat
  processed_entries : List String
  etag : Option String
  last_modified : Option String
  error_count : Int
  feed_title : Option String
  feed_link : Option String
deriving Repr, DecidableEq

/-- Python `FeedState.to_dict` (state.py:24-37).  `entries_list[-MAX:]` keeps the
last `MAX` elements, i.e. drops `len - MAX` from the front. -/
def FeedState.to_dict (s : FeedState) : FeedStateDict :=
  let entries_list :=
    if s.processed_entries.length > MAX_PROCESSED_ENTRIES_PER_FEED then
      s.processed_entries.drop
        (s.processed_entries.length - MAX_PROCESSED_ENTRIES_PER_FEED)
    else s.processed_entries
  { last_check := s.last_check
    processed_entries := entries_list
    etag := s.etag
    last_modified := s.last_modified
    error_count := s.error_count
    feed_title := s.feed_title
    feed_link := s.feed_link }

/-- Python `FeedState.from_dict` (state.py:39-49).  The guard
`if data.get("last_check")` tests truthiness of the ISO string, which is
non-empty exactly when the field is present, i.e. `isSome`;
`list(data.get("processed_entries", []))` copies the list. -/
def FeedState.from_dict (d : FeedStateDict) : FeedState :=
  { last_check := if d.last_check.isSome then d.last_check else none
    processed_entries := d.processed_entries
    etag := d.etag
    last_modified := d.last_modified
    error_count := d.error_count
    feed_title := d.feed_title
    feed_link := d.feed_link }

namespace StateManager

/-- Python `StateManager.is_processed` (state.py:89-91): membership test against
the feed's `processed_entries`. -/
def is_processed (s : FeedState) (entry_guid : String) : Bool :=
  entry_guid ∈ s.processed_entries

/-- Python `StateManager.mark_processed` (state.py:93-99): append the guid if
absent, then truncate to the most recent `MAX_PROCESSED_ENTRIES_PER_FEED`
entries (`[-MAX:]`) when over capacity.  (`save()` is persistence only and
never mutates the in-memory state.) -/
def mark_processed (s : FeedState) (entry_guid : String) : FeedState :=
  if entry_guid ∈ s.processed_entries then s
  else
    let l := s.processed_entries ++ [entry_guid]
    { s with processed_entries :=
        if l.length > MAX_PROCESSED_ENTRIES_PER_FEED then
          l.drop (l.length - MAX_PROCESSED_ENTRIES_PER_FEED)
        else l }

/-- Python truthiness of an `Optional[str]`: `None` and `""` are falsy. -/
def truthyStr : Option String → Bool
  | some t => t ≠ ""
  | none => false

/-- Python `StateManager.update_metadata` (state.py:101-113): records validators
and `datetime.now()`, resets the error count, and overwrites the cached
title/link only when the given value is truthy (`if feed_title:`). -/
def update_metadata (s : FeedState) (etag last_modified : Option String)
    (feed_title feed_link : Option String) (now : Nat) : FeedState :=
  { s with
    etag := etag
    last_modified := last_modified
    last_check := some now
    error_count := 0
    feed_title := if truthyStr feed_title then feed_title else s.feed_title
    feed_link := if truthyStr feed_link then feed_link else s.feed_link }

/-- Python `StateManager.increment_error` (state.py:115-120). -/
def increment_error (s : FeedState) (now : Nat) : FeedState :=
  { s with error_count := s.error_count + 1, last_check := some now }

end StateManager

/-! ## `src/core/models.py` — the `Entry` dataclass -/

/-- One element of `image_buffers`/`video_buffers`: a
`(bytes, url, filename)` tuple (models.py:19-20). -/
structure MediaBuf where
  data : List Nat
  url : String
  filename : Option String
deriving Repr, DecidableEq

/-- One element of `audio_buffers`: a `(bytes, url, filename, thumb)` tuple
(models.py:21). -/
structure AudioBuf where
  data : List Nat
  url : String
  filename : String
  thumb : Option (List Nat)
deriving Repr, DecidableEq

/-- The `Entry` dataclass (models.py:6-23); `published` is an abstract
instant, `content`/`enclosures` are carried for completeness. -/
structure Entry where
  title : String
  link : String
  content : String
  guid : String
  published : Nat
  author : Option String := none
  feed_title : Option String := none
  enclosures : List String := []
  images : List String := []
  videos : List String := []
  audios : List String := []
  image_buffers : List MediaBuf := []
  video_buffers : List MediaBuf := []
  audio_buffers : List AudioBuf := []
  filtered : Bool := false
  formatted_message : Option String := none
deriving Repr, DecidableEq

/-! ## `src/core/monitor.py` — constants and the domain rate limiter key -/

/-- Python `MAX_MESSAGE_LENGTH = 4096` (monitor.py:19). -/
def MAX_MESSAGE_LENGTH : Nat := 4096

/-- Python `MAX_CAPTION_LENGTH = 1024` (monitor.py:20). -/
def MAX_CAPTION_LENGTH : Nat := 1024

namespace DomainRateLimiter

/-- Characters allowed in a URL scheme after the leading letter
(`urllib.parse.scheme_chars`: letters, digits, `+`, `-`, `.`). -/
def isSchemeChar (c : Char) : Bool :=
  c.isAlpha || c.isDigit || c = '+' || c = '-' || c = '.'

/-- Python `url[0].isalpha()` guard of the scheme split (false on empty input). -/
def headAlpha : List Char → Bool
  | c :: _ => c.isAlpha
  | [] => false

/-- The remainder of a URL after stripping a valid `scheme:` prefix, as
`urllib.parse.urlsplit` does: a colon at a positive index whose preceding
characters form `alpha (alpha|digit|+|-|.)*` splits off the scheme. -/
def afterScheme (cs : List Char) : List Char :=
  match cs.findIdx? (fun c => c = ':') with
  | none => cs
  | some i =>
    if 0 < i ∧ headAlpha cs = true ∧ (cs.take i).all isSchemeChar = true then
      cs.drop (i + 1)
    else cs

/-- The `netloc` of `urlsplit`: present only when the post-scheme part
starts with `//`, and then runs up to the next `/`, `?` or `#`. -/
def netlocChars (rest : List Char) : List Char :=
  match rest with
  | '/' :: '/' :: r => r.takeWhile (fun c => ¬(c = '/' ∨ c = '?' ∨ c = '#'))
  | _ => []

/-- The `netloc` attribute of `urlparse(url)`, as a list of characters. -/
def netlocOf (url : String) : List Char :=
  netlocChars (afterScheme url.data)

/-- Python `urlsplit` raises `ValueError ("Invalid IPv6 URL")` when exactly one of
`[`, `]` occurs in the netloc; this is the parse failure `get_domain`
catches. -/
def parseRaises (url : String) : Bool :=
  (netlocOf url).contains '[' != (netlocOf url).contains ']'

/-- Python `DomainRateLimiter.get_domain` (monitor.py:33-39):
`urlparse(url).netloc.lower()`, falling back to the full URL string when
parsing raises.  `.lower()` is modelled on ASCII letters. -/
def get_domain (url : String) : String :=
  if parseRaises url then url
  else String.mk ((netlocOf url).map Char.toLower)

end DomainRateLimiter

namespace FeedMonitor

/-- Python `FeedMonitor._escape_html` (monitor.py:315-318): sequential
single-character replacements; an empty (falsy) text yields `""`.
Each `str.replace` with a one-character pattern rewrites every occurrence
of that character. -/
def replaceChar (cs : List Char) (c : Char) (r : List Char) : List Char :=
  (cs.map (fun x => if x = c then r else [x])).flatten

/-- The apostrophe character (escaped in Python as `&#39;`). -/
def apos : Char := Char.ofNat 39

/-- The double-quote character (escaped in Python as `&quot;`). -/
def quot : Char := Char.ofNat 34

def escape_html (text : String) : String :=
  if text = "" then ""
  else
    String.mk
      (replaceChar
        (replaceChar
          (replaceChar
            (replaceChar
              (replaceChar text.data '&' "&amp;".data)
              '<' "&lt;".data)
            '>' "&gt;".data)
          quot "&quot;".data)
        apos "&#39;".data)

/-- Python `s[:n]` on a string. -/
def strSlice (s : String) (n : Nat) : String :=
  String.mk (s.data.take n)

/-- Python `images = entry.image_buffers[:10] if entry.image_buffers else
entry.images[:10]` (monitor.py:321): length of the selected slice. -/
def selImagesLen (e : Entry) : Nat :=
  if e.image_buffers.isEmpty then (e.images.take 10).length
  else (e.image_buffers.take 10).length

/-- Same selection for videos (monitor.py:322). -/
def selVideosLen (e : Entry) : Nat :=
  if e.video_buffers.isEmpty then (e.videos.take 10).length
  else (e.video_buffers.take 10).length

/-- Same selection for audios (monitor.py:323). -/
def selAudiosLen (e : Entry) : Nat :=
  if e.audio_buffers.isEmpty then (e.audios.take 10).length
  else (e.audio_buffers.take 10).length

/-- Python `has_media = bool(images or videos or audios)` (monitor.py:325). -/
def hasMedia (e : Entry) : Bool :=
  selImagesLen e ≠ 0 || selVideosLen e ≠ 0 || selAudiosLen e ≠ 0

/-- Python `max_length = MAX_CAPTION_LENGTH if has_media else MAX_MESSAGE_LENGTH`
(monitor.py:326): the limit applicable to this entry's payload. -/
def applicableLimit (e : Entry) : Nat :=
  if hasMedia e then MAX_CAPTION_LENGTH else MAX_MESSAGE_LENGTH

/-- The text actually handed to the transport by
`FeedMonitor.send_entry_with_media` (monitor.py:320-333): the rendered
message, or the minimal fallback `<b>title</b> + read-more link`, or the
same fallback with the title sliced to `max_length - 50` characters. -/
def send_text (e : Entry) (message : String) : String :=
  let max_length := applicableLimit e
  if message.length > max_length then
    let title := escape_html e.title
    let msg2 := "<b>" ++ title ++ "</b>\n\n<a href=\x27" ++ e.link
      ++ "\x27>Read more</a>"
    if msg2.length > max_length then
      let available := max_length - 50
      "<b>" ++ strSlice title available ++ "...</b>\n\n<a href=\x27"
        ++ e.link ++ "\x27>Read more</a>"
    else msg2
  else message

/-! ### The per-entry delivery handler and the check-and-deliver cycle -/

/-- Outcome of one transport attempt inside `_process_and_send_entry`
(monitor.py:287-308): success, or one of the caught failure classes
(`TelegramRetryAfter`, `TelegramForbiddenError`, `TelegramBadRequest`,
any other exception). -/
inductive SendOutcome where
  | ok
  | retryAfter (seconds : Nat)
  | forbidden
  | badRequest
  | otherError
deriving Repr, DecidableEq

/-- Observable effect of one `_process_and_send_entry` call:
the feed state afterwards, whether a transport call was attempted
(`send_entry_with_media` invoked), whether `mark_processed` ran for this
entry, whether an exception escaped the handler, and the flood-control
pause performed (`retry_after + 1`, monitor.py:301). -/
structure SendStep where
  state : FeedState
  sent : Bool
  marked : Bool
  raised : Bool
  wait : Option Nat
deriving Repr, DecidableEq

/-- Python `FeedMonitor._process_and_send_entry` (monitor.py:276-308) for one
entry with guid `guid`: `filtered` is the pipeline's verdict on it and
`outcome` the transport's.  A filtered entry is marked and skipped
(monitor.py:279-282); a successful send and a `TelegramBadRequest` mark
the entry; `TelegramRetryAfter` (after its pause), a
`TelegramForbiddenError` and any other send error leave the state
untouched; every failure class is caught, so nothing escapes. -/
def process_and_send_entry (s : FeedState) (guid : String)
    (filtered : Bool) (outcome : SendOutcome) : SendStep :=
  if filtered then
    { state := StateManager.mark_processed s guid
      sent := false, marked := true, raised := false, wait := none }
  else
    match outcome with
    | .ok =>
      { state := StateManager.mark_processed s guid
        sent := true, marked := true, raised := false, wait := none }
    | .retryAfter n =>
      { state := s, sent := true, marked := false, raised := false
        wait := some (n + 1) }
    | .forbidden =>
      { state := s, sent := true, marked := false, raised := false
        wait := none }
    | .badRequest =>
      { state := StateManager.mark_processed s guid
        sent := true, marked := true, raised := false, wait := none }
    | .otherError =>
      { state := s, sent := true, marked := false, raised := false
        wait := none }

/-- Accumulated trace of the delivery loop of `_check_feed`
(monitor.py:238-246): final state, guids handed to
`_process_and_send_entry` in order, guids for which a transport call was
attempted, guids marked processed, and whether any exception escaped the
loop (its body catches all, monitor.py:243-246). -/
structure LoopResult where
  state : FeedState
  attempts : List String
  sends : List String
  marks : List String
  raised : Bool
deriving Repr, DecidableEq

/-- The `for entry in reversed(new_entries)` loop of `_check_feed`
(monitor.py:238-246), already given the reversed list.  `shutdown i` is
the value the `self._shutdown_event.is_set()` check observes on the
loop's `i`-th iteration; a `true` observation returns at once.
`filt`/`outc` give, per guid, the pipeline verdict and transport outcome
for this cycle. -/
def deliverLoop (filt : String → Bool) (outc : String → SendOutcome) :
    (Nat → Bool) → FeedState → List Entry → LoopResult
  | _, s, [] => ⟨s, [], [], [], false⟩
  | sh, s, e :: rest =>
    if sh 0 then ⟨s, [], [], [], false⟩
    else
      let r := process_and_send_entry s e.guid (filt e.guid) (outc e.guid)
      let res := deliverLoop filt outc (fun i => sh (i + 1)) r.state rest
      { state := res.state
        attempts := e.guid :: res.attempts
        sends := if r.sent then e.guid :: res.sends else res.sends
        marks := if r.marked then e.guid :: res.marks else res.marks
        raised := r.raised || res.raised }

/-- A successful `FeedFetcher.fetch` result (fetcher.py:20-78): the parsed
entries and the new validators/title/link (a 304 response yields `[]`
with the old validators). -/
structure FetchOk where
  entries : List Entry
  etag : Option String
  last_modified : Option String
  feed_title : Option String
  feed_link : Option String
deriving Repr, DecidableEq

/-- Python `new_entries = [e for e in entries if not await
self.state.is_processed(feed_url, e.guid)]` (monitor.py:225). -/
def newEntriesOf (s : FeedState) (entries : List Entry) : List Entry :=
  entries.filter (fun e => !(StateManager.is_processed s e.guid))

/-- Observable effect of one `_check_feed` call (monitor.py:205-246). -/
structure CheckResult where
  state : FeedState
  attempts : List String
  sends : List String
  marks : List String
  raised : Bool
deriving Repr, DecidableEq

/-- Python `FeedMonitor._check_feed` (monitor.py:205-246).  `fetch` is the
fetcher's behaviour on this cycle (`.error` = the fetch raised, caught at
monitor.py:215-218).  `is_first_run = not state.last_check` is read before
anything mutates the state; a failed fetch increments the error count and
returns; a successful fetch always records validators/title/link; the
first-run branch marks every new entry without any transport call;
otherwise the (reversed) new entries go through the delivery loop. -/
def check_feed (s : FeedState) (fetch : Except Unit FetchOk)
    (filt : String → Bool) (outc : String → SendOutcome)
    (shutdown : Nat → Bool) (now : Nat) : CheckResult :=
  let is_first_run := s.last_check.isNone
  match fetch with
  | .error _ =>
    { state := StateManager.increment_error s now
      attempts := [], sends := [], marks := [], raised := false }
  | .ok f =>
    let s1 := StateManager.update_metadata s f.etag f.last_modified
      f.feed_title f.feed_link now
    if f.entries.isEmpty then
      { state := s1, attempts := [], sends := [], marks := [], raised := false }
    else
      let news := newEntriesOf s1 f.entries
      if is_first_run && !news.isEmpty then
        { state := news.foldl (fun st e => StateManager.mark_processed st e.guid) s1
          attempts := [], sends := [], marks := news.map (·.guid)
          raised := false }
      else if news.isEmpty then
        { state := s1, attempts := [], sends := [], marks := [], raised := false }
      else
        let r := deliverLoop filt outc shutdown s1 news.reverse
        { state := r.state, attempts := r.attempts, sends := r.sends
          marks := r.marks, raised := r.raised }

/-- Python `interval = feed_config.check_interval or 300` (monitor.py:180):
Python `or` replaces a falsy (`None` or `0`) value. -/
def effectiveInterval (check_interval : Option Nat) : Nat :=
  match check_interval with
  | none => 300
  | some n => if n = 0 then 300 else n

/-- One iteration of the body of `_monitor_feed_loop` (monitor.py:164-195)
once configuration resolved: run `_check_feed` and compute the next sleep.
The `except Exception` branch (monitor.py:187-193) — increment the error
count and floor the interval at 600 once `error_count >= 5` — runs only
when an exception escapes `_check_feed`. -/
def monitor_iteration (check_interval : Option Nat) (s : FeedState)
    (fetch : Except Unit FetchOk) (filt : String → Bool)
    (outc : String → SendOutcome) (shutdown : Nat → Bool) (now : Nat) :
    FeedState × Nat :=
  let interval := effectiveInterval check_interval
  let r := check_feed s fetch filt outc shutdown now
  if r.raised then
    let s2 := StateManager.increment_error r.state now
    (s2, if s2.error_count ≥ 5 then max interval 600 else interval)
  else
    (r.state, interval)

/-- Number of loop iterations completed before the first `true` shutdown
observation, over a list of `n` items: the index of the first `i < n`
with `shutdown i = true`, or `n` when there is none. -/
def firstTrue (p : Nat → Bool) : Nat → Nat
  | 0 => 0
  | n + 1 => if p 0 then 0 else firstTrue (fun i => p (i + 1)) n + 1

end FeedMonitor

open FeedMonitor

/-! ## Helper lemmas about the state store -/

theorem mark_processed_length_le (s : FeedState) (g : String)
    (h : s.processed_entries.length ≤ 100) :
    (StateManager.mark_processed s g).processed_entries.length ≤ 100 := by
  unfold StateManager.mark_processed
  by_cases hg : g ∈ s.processed_entries
  · simp [hg, h]
  · simp only [hg, ite_false, MAX_PROCESSED_ENTRIES_PER_FEED]
    split
    · next hlen =>
      simp only [List.length_drop]
      omega
    · next hlen =>
      simp only [List.length_append, List.length_singleton, gt_iff_lt,
        not_lt] at hlen ⊢
      omega

theorem mark_processed_mem_self (s : FeedState) (g : String) :
    g ∈ (StateManager.mark_processed s g).processed_entries := by
  unfold StateManager.mark_processed
  by_cases hg : g ∈ s.processed_entries
  · simp [hg]
  · simp only [hg, ite_false]
    split
    · next hlen =>
      simp only [MAX_PROCESSED_ENTRIES_PER_FEED, List.length_append,
        List.length_singleton, gt_iff_lt] at hlen ⊢
      rw [List.drop_append_of_le_length (by omega)]
      simp
    · simp

theorem mark_processed_preserves_mem (s : FeedState) (g x : String)
    (hx : x ∈ s.processed_entries) (hlen : s.processed_entries.length < 100) :
    x ∈ (StateManager.mark_processed s g).processed_entries := by
  unfold StateManager.mark_processed
  by_cases hg : g ∈ s.processed_entries
  · simpa [hg] using hx
  · simp only [hg, ite_false, MAX_PROCESSED_ENTRIES_PER_FEED,
      List.length_append, List.length_singleton]
    rw [if_neg (by omega)]
    simp [hx]

theorem update_metadata_processed_entries (s : FeedState)
    (etag lm ft fl : Option String) (now : Nat) :
    (StateManager.update_metadata s etag lm ft fl now).processed_entries
      = s.processed_entries := rfl

/-! ## Claims about the state store -/

/-- C3: starting from an empty state, any sequence of `markProcessed`
operations keeps `processed_entries` at or below 100 entries; an
identifier already present is not appended again; and when an append
would exceed capacity (the list is full at 100) the oldest identifier is
evicted, keeping the most recent 100. -/
theorem C3_capacity_fifo (ops : List String) (s : FeedState) (id : String)
    (hs : s = ops.foldl (fun st g => StateManager.mark_processed st g)
      FeedState.empty) :
    s.processed_entries.length ≤ 100
    ∧ (id ∈ s.processed_entries → StateManager.mark_processed s id = s)
    ∧ (id ∉ s.processed_entries → s.processed_entries.length = 100 →
        (StateManager.mark_processed s id).processed_entries
          = s.processed_entries.tail ++ [id]) := by
  refine ⟨?_, ?_, ?_⟩
  · subst hs
    have key : ∀ (l : List String) (st : FeedState),
        st.processed_entries.length ≤ 100 →
        (l.foldl (fun st g => StateManager.mark_processed st g)
          st).processed_entries.length ≤ 100 := by
      intro l
      induction l with
      | nil => intro st h; simpa using h
      | cons g rest ih =>
        intro st h
        exact ih _ (mark_processed_length_le st g h)
    exact key ops FeedState.empty (by simp [FeedState.empty])
  · intro hmem
    unfold StateManager.mark_processed
    simp [hmem]
  · intro hmem hlen
    unfold StateManager.mark_processed
    simp only [hmem, ite_false]
    have hgt : (s.processed_entries ++ [id]).length
        > MAX_PROCESSED_ENTRIES_PER_FEED := by
      simp only [List.length_append, List.length_singleton, hlen,
        MAX_PROCESSED_ENTRIES_PER_FEED]
      omega
    simp only [hgt, ite_true]
    rw [show (s.processed_entries ++ [id]).length
        - MAX_PROCESSED_ENTRIES_PER_FEED = 1 by
      simp only [List.length_append, List.length_singleton, hlen,
        MAX_PROCESSED_ENTRIES_PER_FEED]]
    rw [List.drop_append_of_le_length (by simp [hlen]), List.drop_one]

/-- 101 distinct identifiers, to drive the capacity bound concretely. -/
def ops101 : List String := (List.range 101).map (fun n => toString n)

/-- The state after marking `ops101` in order from the empty state. -/
def st101 : FeedState :=
  ops101.foldl (fun st g => StateManager.mark_processed st g) FeedState.empty

set_option maxRecDepth 100000 in
/-- Witness for C3: after 101 distinct marks the list holds 100 entries;
re-marking the member `"5"` is a no-op; marking a fresh identifier on the
full list evicts the oldest and appends at the end. -/
theorem C3_capacity_fifo_witness :
    st101.processed_entries.length ≤ 100
    ∧ StateManager.mark_processed st101 "5" = st101
    ∧ (StateManager.mark_processed st101 "fresh").processed_entries
        = st101.processed_entries.tail ++ ["fresh"] :=
  ⟨(C3_capacity_fifo ops101 st101 "5" rfl).1,
   (C3_capacity_fifo ops101 st101 "5" rfl).2.1 (by decide),
   (C3_capacity_fifo ops101 st101 "fresh" rfl).2.2 (by decide) (by decide)⟩

/-! ## Helper lemmas about the delivery loop -/

theorem deliverLoop_attempts_mem (filt : String → Bool)
    (outc : String → SendOutcome) (sh : Nat → Bool) (s : FeedState)
    (es : List Entry) (x : String)
    (hx : x ∈ (FeedMonitor.deliverLoop filt outc sh s es).attempts) :
    x ∈ es.map Entry.guid := by
  induction es generalizing sh s with
  | nil => simp [FeedMonitor.deliverLoop] at hx
  | cons e rest ih =>
    rw [FeedMonitor.deliverLoop] at hx
    by_cases h0 : sh 0
    · simp [h0] at hx
    · simp only [h0, ite_false] at hx
      rcases List.mem_cons.mp hx with h | h
      · simp [h]
      · exact List.mem_cons_of_mem _ (ih _ _ h)

theorem deliverLoop_sends_subset_attempts (filt : String → Bool)
    (outc : String → SendOutcome) (sh : Nat → Bool) (s : FeedState)
    (es : List Entry) (x : String)
    (hx : x ∈ (FeedMonitor.deliverLoop filt outc sh s es).sends) :
    x ∈ (FeedMonitor.deliverLoop filt outc sh s es).attempts := by
  induction es generalizing sh s with
  | nil => simp [FeedMonitor.deliverLoop] at hx
  | cons e rest ih =>
    rw [FeedMonitor.deliverLoop] at hx ⊢
    by_cases h0 : sh 0
    · simp [h0] at hx
    · simp only [h0, ite_false, Bool.false_eq_true] at hx ⊢
      by_cases hsent :
          (process_and_send_entry s e.guid (filt e.guid) (outc e.guid)).sent
      · simp only [hsent, ite_true] at hx
        rcases List.mem_cons.mp hx with h | h
        · simp [h]
        · exact List.mem_cons_of_mem _ (ih _ _ h)
      · simp only [hsent, ite_false, Bool.false_eq_true] at hx
        exact List.mem_cons_of_mem _ (ih _ _ hx)

theorem process_and_send_entry_raised_false (s : FeedState) (g : String)
    (filtered : Bool) (o : SendOutcome) :
    (process_and_send_entry s g filtered o).raised = false := by
  unfold FeedMonitor.process_and_send_entry
  split
  · rfl
  · cases o <;> rfl

theorem deliverLoop_raised_false (filt : String → Bool)
    (outc : String → SendOutcome) (sh : Nat → Bool) (s : FeedState)
    (es : List Entry) :
    (FeedMonitor.deliverLoop filt outc sh s es).raised = false := by
  induction es generalizing sh s with
  | nil => simp [FeedMonitor.deliverLoop]
  | cons e rest ih =>
    rw [FeedMonitor.deliverLoop]
    by_cases h0 : sh 0
    · simp [h0]
    · simp [h0, process_and_send_entry_raised_false, ih]

/-- Running the loop under a shutdown schedule is the same as running it
with no shutdown on the prefix of items completed before the first `true`
observation. -/
theorem deliverLoop_shutdown_take (filt : String → Bool)
    (outc : String → SendOutcome) (sh : Nat → Bool) (s : FeedState)
    (es : List Entry) :
    FeedMonitor.deliverLoop filt outc sh s es
      = FeedMonitor.deliverLoop filt outc (fun _ => false) s
          (es.take (FeedMonitor.firstTrue sh es.length)) := by
  induction es generalizing sh s with
  | nil => rfl
  | cons e rest ih =>
    simp only [List.length_cons, FeedMonitor.firstTrue]
    by_cases h0 : sh 0
    · simp only [h0, ite_true, List.take_zero]
      simp [FeedMonitor.deliverLoop, h0]
    · simp only [h0, ite_false, List.take_succ_cons, Bool.false_eq_true]
      rw [FeedMonitor.deliverLoop, FeedMonitor.deliverLoop]
      simp only [h0, Bool.false_eq_true, ite_false]
      rw [ih]

/-- With no shutdown, the loop hands every entry of the list, in order, to
the per-entry handler. -/
theorem deliverLoop_noShutdown_attempts (filt : String → Bool)
    (outc : String → SendOutcome) (s : FeedState) (es : List Entry) :
    (FeedMonitor.deliverLoop filt outc (fun _ => false) s es).attempts
      = es.map Entry.guid := by
  induction es generalizing s with
  | nil => rfl
  | cons e rest ih =>
    rw [FeedMonitor.deliverLoop]
    simp only [Bool.false_eq_true, ite_false, List.map_cons]
    rw [ih]

theorem check_feed_sends_subset_attempts (s : FeedState)
    (fetch : Except Unit FetchOk) (filt : String → Bool)
    (outc : String → SendOutcome) (shutdown : Nat → Bool) (now : Nat)
    (x : String)
    (hx : x ∈ (FeedMonitor.check_feed s fetch filt outc shutdown now).sends) :
    x ∈ (FeedMonitor.check_feed s fetch filt outc shutdown now).attempts := by
  unfold FeedMonitor.check_feed at hx ⊢
  cases fetch with
  | error e => simp at hx
  | ok f =>
    simp only at hx ⊢
    by_cases h1 : f.entries.isEmpty
    · simp [h1] at hx
    · by_cases h3 : (FeedMonitor.newEntriesOf
          (StateManager.update_metadata s f.etag f.last_modified
            f.feed_title f.feed_link now) f.entries).isEmpty
      · by_cases hfr : s.last_check.isNone
        · simp [h1, h3, hfr] at hx
        · simp [h1, h3, hfr] at hx
      · by_cases hfr : s.last_check.isNone
        · simp [h1, h3, hfr] at hx
        · simp [h1, h3, hfr] at hx ⊢
          exact deliverLoop_sends_subset_attempts _ _ _ _ _ _ hx

/-! ## Claims about the check-and-deliver cycle -/

/-- C1: an item whose guid is already in the feed's `processed_entries`
is filtered out before any processing: the cycle never hands it to the
per-item handler and never attempts a transport call for it, whatever the
fetch result, pipeline verdicts, transport outcomes and shutdown
observations of the cycle are. -/
theorem C1_no_duplicate_delivery (s : FeedState)
    (fetch : Except Unit FetchOk) (filt : String → Bool)
    (outc : String → SendOutcome) (shutdown : Nat → Bool) (now : Nat)
    (guid : String) (h : guid ∈ s.processed_entries) :
    guid ∉ (FeedMonitor.check_feed s fetch filt outc shutdown now).attempts
    ∧ guid ∉ (FeedMonitor.check_feed s fetch filt outc shutdown now).sends := by
  have key : guid ∉ (FeedMonitor.check_feed s fetch filt outc shutdown now).attempts := by
    unfold FeedMonitor.check_feed
    cases fetch with
    | error e => simp
    | ok f =>
      simp only
      by_cases h1 : f.entries.isEmpty
      · simp [h1]
      · by_cases h3 : (FeedMonitor.newEntriesOf
            (StateManager.update_metadata s f.etag f.last_modified
              f.feed_title f.feed_link now) f.entries).isEmpty
        · by_cases hfr : s.last_check.isNone
          · simp [h1, h3, hfr]
          · simp [h1, h3, hfr]
        · by_cases hfr : s.last_check.isNone
          · simp [h1, h3, hfr]
          · simp only [h1, h3, hfr]
            simp [h1, h3, hfr]
            intro hmem
            have h1m := deliverLoop_attempts_mem _ _ _ _ _ _ hmem
            rw [List.map_reverse, List.mem_reverse, List.mem_map] at h1m
            obtain ⟨e, he, heg⟩ := h1m
            unfold FeedMonitor.newEntriesOf at he
            have h2m := List.mem_filter.mp he
            simp only [StateManager.is_processed] at h2m
            have h3m : guid ∉ s.processed_entries := by
              have := h2m.2
              simp only [Bool.not_eq_true', decide_eq_false_iff_not] at this
              simpa [heg, StateManager.update_metadata] using this
            exact h3m h
  exact ⟨key, fun hs => key (check_feed_sends_subset_attempts _ _ _ _ _ _ _ hs)⟩

/-- Witness for C1: a state that already delivered `"g1"` and a fetch
returning `"g1"` and `"g2"` again — `"g1"` is neither handed to the
handler nor sent. -/
theorem C1_no_duplicate_delivery_witness :
    "g1" ∉ (FeedMonitor.check_feed
      { last_check := some 1, processed_entries := ["g1"] }
      (.ok ⟨[{ title := "a", link := "la", content := "", guid := "g1",
               published := 0 },
             { title := "b", link := "lb", content := "", guid := "g2",
               published := 0 }], none, none, none, none⟩)
      (fun _ => false) (fun _ => .ok) (fun _ => false) 2).attempts
    ∧ "g1" ∉ (FeedMonitor.check_feed
      { last_check := some 1, processed_entries := ["g1"] }
      (.ok ⟨[{ title := "a", link := "la", content := "", guid := "g1",
               published := 0 },
             { title := "b", link := "lb", content := "", guid := "g2",
               published := 0 }], none, none, none, none⟩)
      (fun _ => false) (fun _ => .ok) (fun _ => false) 2).sends :=
  C1_no_duplicate_delivery _ _ _ _ _ _ "g1" (by decide)

/-- C2: on a feed's first-ever successful check (`last_check` absent), the
cycle hands no item to the per-item handler and attempts no transport
call, while every new (not-yet-seen) fetched item gets marked processed. -/
theorem C2_first_contact (s : FeedState) (f : FetchOk) (filt : String → Bool)
    (outc : String → SendOutcome) (shutdown : Nat → Bool) (now : Nat)
    (hfirst : s.last_check = none) :
    (FeedMonitor.check_feed s (.ok f) filt outc shutdown now).attempts = []
    ∧ (FeedMonitor.check_feed s (.ok f) filt outc shutdown now).sends = []
    ∧ (FeedMonitor.check_feed s (.ok f) filt outc shutdown now).marks
        = (FeedMonitor.newEntriesOf
            (StateManager.update_metadata s f.etag f.last_modified
              f.feed_title f.feed_link now) f.entries).map Entry.guid := by
  unfold FeedMonitor.check_feed
  simp only [hfirst, Option.isNone_none, Bool.true_and]
  by_cases h1 : f.entries.isEmpty
  · have hnil : f.entries = [] := List.isEmpty_iff.mp h1
    refine ⟨by simp [h1], by simp [h1], ?_⟩
    simp [h1, FeedMonitor.newEntriesOf, hnil]
  · by_cases h2 : (FeedMonitor.newEntriesOf
        (StateManager.update_metadata s f.etag f.last_modified f.feed_title
          f.feed_link now) f.entries).isEmpty
    · have hnil : FeedMonitor.newEntriesOf
          (StateManager.update_metadata s f.etag f.last_modified f.feed_title
            f.feed_link now) f.entries = [] := List.isEmpty_iff.mp h2
      exact ⟨by simp [h1, h2], by simp [h1, h2], by simp [h1, h2, hnil]⟩
    · exact ⟨by simp [h1, h2], by simp [h1, h2], by simp [h1, h2]⟩

/-- Witness for C2: first check of a fresh feed returning two entries. -/
theorem C2_first_contact_witness :
    (FeedMonitor.check_feed FeedState.empty
      (.ok ⟨[{ title := "a", link := "la", content := "", guid := "g1",
               published := 0 },
             { title := "b", link := "lb", content := "", guid := "g2",
               published := 0 }], some "E", none, some "T", none⟩)
      (fun _ => false) (fun _ => .ok) (fun _ => false) 5).attempts = []
    ∧ (FeedMonitor.check_feed FeedState.empty
      (.ok ⟨[{ title := "a", link := "la", content := "", guid := "g1",
               published := 0 },
             { title := "b", link := "lb", content := "", guid := "g2",
               published := 0 }], some "E", none, some "T", none⟩)
      (fun _ => false) (fun _ => .ok) (fun _ => false) 5).sends = []
    ∧ (FeedMonitor.check_feed FeedState.empty
      (.ok ⟨[{ title := "a", link := "la", content := "", guid := "g1",
               published := 0 },
             { title := "b", link := "lb", content := "", guid := "g2",
               published := 0 }], some "E", none, some "T", none⟩)
      (fun _ => false) (fun _ => .ok) (fun _ => false) 5).marks
        = (FeedMonitor.newEntriesOf
            (StateManager.update_metadata FeedState.empty (some "E") none
              (some "T") none 5)
            [{ title := "a", link := "la", content := "", guid := "g1",
               published := 0 },
             { title := "b", link := "lb", content := "", guid := "g2",
               published := 0 }]).map Entry.guid :=
  C2_first_contact _ _ _ _ _ _ rfl

/-- C4: per-item send-failure taxonomy.  A flood-control failure
(`TelegramRetryAfter`) leaves the state untouched — the item is not
marked processed, sleeps `retry_after + 1`, and reappears in the new-item
filter of a later poll; a `TelegramBadRequest` marks the item processed;
a `TelegramForbiddenError` leaves the state untouched; and no outcome
lets an exception escape the per-item handler. -/
theorem C4_send_failure_taxonomy (s : FeedState) (guid : String) (n : Nat) :
    (process_and_send_entry s guid false (.retryAfter n)).state = s
    ∧ (process_and_send_entry s guid false (.retryAfter n)).marked = false
    ∧ (process_and_send_entry s guid false (.retryAfter n)).wait = some (n + 1)
    ∧ (guid ∉ s.processed_entries →
        ∀ (entries : List Entry) (e : Entry), e ∈ entries → e.guid = guid →
          e ∈ FeedMonitor.newEntriesOf
            (process_and_send_entry s guid false (.retryAfter n)).state entries)
    ∧ guid ∈ (process_and_send_entry s guid false
        .badRequest).state.processed_entries
    ∧ (process_and_send_entry s guid false .badRequest).marked = true
    ∧ (process_and_send_entry s guid false .forbidden).state = s
    ∧ (process_and_send_entry s guid false .forbidden).marked = false
    ∧ (∀ (filtered : Bool) (o : SendOutcome),
        (process_and_send_entry s guid filtered o).raised = false) := by
  refine ⟨rfl, rfl, rfl, ?_, ?_, rfl, rfl, rfl,
    fun filtered o => process_and_send_entry_raised_false s guid filtered o⟩
  · intro hng entries e he heg
    unfold FeedMonitor.newEntriesOf
    rw [List.mem_filter]
    refine ⟨he, ?_⟩
    simp [StateManager.is_processed, FeedMonitor.process_and_send_entry,
      heg, hng]
  · simpa [FeedMonitor.process_and_send_entry] using
      mark_processed_mem_self s guid

/-- A state used to instantiate C4 concretely. -/
def s4 : FeedState := { last_check := some 1, processed_entries := ["x"] }

/-- An entry used to instantiate C4 concretely. -/
def e4 : Entry :=
  { title := "t", link := "l", content := "", guid := "g", published := 0 }

/-- Witness for C4 at a concrete state, guid and retry-after delay. -/
theorem C4_send_failure_taxonomy_witness :
    (process_and_send_entry s4 "g" false (.retryAfter 3)).state = s4
    ∧ (process_and_send_entry s4 "g" false (.retryAfter 3)).wait = some 4
    ∧ e4 ∈ FeedMonitor.newEntriesOf
        (process_and_send_entry s4 "g" false (.retryAfter 3)).state [e4]
    ∧ "g" ∈ (process_and_send_entry s4 "g" false
        .badRequest).state.processed_entries
    ∧ (process_and_send_entry s4 "g" false .forbidden).state = s4
    ∧ (process_and_send_entry s4 "g" true .ok).raised = false :=
  ⟨(C4_send_failure_taxonomy s4 "g" 3).1,
   (C4_send_failure_taxonomy s4 "g" 3).2.2.1,
   (C4_send_failure_taxonomy s4 "g" 3).2.2.2.1 (by decide) [e4] e4
     (by simp) rfl,
   (C4_send_failure_taxonomy s4 "g" 3).2.2.2.2.1,
   (C4_send_failure_taxonomy s4 "g" 3).2.2.2.2.2.2.1,
   (C4_send_failure_taxonomy s4 "g" 3).2.2.2.2.2.2.2.2 true .ok⟩

/-- C6: on a non-first-contact cycle the new items are handed to the
per-item handler oldest-first — in the reverse of the fetcher's order —
one at a time, stopping at the first `true` shutdown observation; the
resulting state (and mark trace) is exactly that of running the loop,
without shutdown, on the completed prefix alone, so aborting loses no
already-made progress and touches none of the remaining items. -/
theorem C6_oldest_first_shutdown (s : FeedState) (f : FetchOk)
    (filt : String → Bool) (outc : String → SendOutcome)
    (shutdown : Nat → Bool) (now : Nat) (s1 : FeedState)
    (news : List Entry) (k : Nat)
    (hnotfirst : s.last_check.isNone = false)
    (hs1 : s1 = StateManager.update_metadata s f.etag f.last_modified
      f.feed_title f.feed_link now)
    (hnews : news = FeedMonitor.newEntriesOf s1 f.entries)
    (hk : k = FeedMonitor.firstTrue shutdown news.length) :
    (FeedMonitor.check_feed s (.ok f) filt outc shutdown now).attempts
      = (news.reverse.map Entry.guid).take k
    ∧ (FeedMonitor.check_feed s (.ok f) filt outc shutdown now).state
      = (FeedMonitor.deliverLoop filt outc (fun _ => false) s1
          (news.reverse.take k)).state
    ∧ (FeedMonitor.check_feed s (.ok f) filt outc shutdown now).marks
      = (FeedMonitor.deliverLoop filt outc (fun _ => false) s1
          (news.reverse.take k)).marks := by
  subst hs1 hnews hk
  unfold FeedMonitor.check_feed
  simp only [hnotfirst, Bool.false_and, Bool.false_eq_true, ite_false]
  by_cases h1 : f.entries.isEmpty
  · have hnil : f.entries = [] := List.isEmpty_iff.mp h1
    refine ⟨by simp [h1, hnil, FeedMonitor.newEntriesOf],
      by simp [h1, hnil, FeedMonitor.newEntriesOf, FeedMonitor.deliverLoop],
      by simp [h1, hnil, FeedMonitor.newEntriesOf, FeedMonitor.deliverLoop]⟩
  · by_cases h3 : (FeedMonitor.newEntriesOf
        (StateManager.update_metadata s f.etag f.last_modified f.feed_title
          f.feed_link now) f.entries).isEmpty
    · have hnil := List.isEmpty_iff.mp h3
      refine ⟨by simp [h1, h3, hnil],
        by simp [h1, h3, hnil, FeedMonitor.deliverLoop],
        by simp [h1, h3, hnil, FeedMonitor.deliverLoop]⟩
    · have hloop := deliverLoop_shutdown_take filt outc shutdown
        (StateManager.update_metadata s f.etag f.last_modified f.feed_title
          f.feed_link now)
        ((FeedMonitor.newEntriesOf
          (StateManager.update_metadata s f.etag f.last_modified f.feed_title
            f.feed_link now) f.entries).reverse)
      rw [List.length_reverse] at hloop
      refine ⟨?_, by simp [h1, h3, hloop], by simp [h1, h3, hloop]⟩
      simp only [h1, h3, Bool.false_eq_true, ite_false]
      rw [hloop, deliverLoop_noShutdown_attempts, List.map_take]

/-- Entries used to instantiate C6 concretely. -/
def entsC6 : List Entry :=
  [{ title := "a", link := "la", content := "", guid := "ga", published := 0 },
   { title := "b", link := "lb", content := "", guid := "gb", published := 0 },
   { title := "c", link := "lc", content := "", guid := "gc", published := 0 }]

/-- Witness for C6: three new entries, shutdown observed from the second
iteration on — only the oldest entry is handed over and delivered. -/
theorem C6_oldest_first_shutdown_witness :
    (FeedMonitor.check_feed { last_check := some 1 }
      (.ok ⟨entsC6, none, none, none, none⟩) (fun _ => false) (fun _ => .ok)
      (fun i => decide (1 ≤ i)) 9).attempts
      = (((FeedMonitor.newEntriesOf
          (StateManager.update_metadata { last_check := some 1 } none none
            none none 9) entsC6).reverse.map Entry.guid).take
        (FeedMonitor.firstTrue (fun i => decide (1 ≤ i))
          (FeedMonitor.newEntriesOf
            (StateManager.update_metadata { last_check := some 1 } none none
              none none 9) entsC6).length))
    ∧ (FeedMonitor.check_feed { last_check := some 1 }
      (.ok ⟨entsC6, none, none, none, none⟩) (fun _ => false) (fun _ => .ok)
      (fun i => decide (1 ≤ i)) 9).state
      = (FeedMonitor.deliverLoop (fun _ => false) (fun _ => .ok)
          (fun _ => false)
          (StateManager.update_metadata { last_check := some 1 } none none
            none none 9)
          ((FeedMonitor.newEntriesOf
            (StateManager.update_metadata { last_check := some 1 } none none
              none none 9) entsC6).reverse.take
            (FeedMonitor.firstTrue (fun i => decide (1 ≤ i))
              (FeedMonitor.newEntriesOf
                (StateManager.update_metadata { last_check := some 1 } none
                  none none none 9) entsC6).length))).state
    ∧ (FeedMonitor.check_feed { last_check := some 1 }
      (.ok ⟨entsC6, none, none, none, none⟩) (fun _ => false) (fun _ => .ok)
      (fun i => decide (1 ≤ i)) 9).marks
      = (FeedMonitor.deliverLoop (fun _ => false) (fun _ => .ok)
          (fun _ => false)
          (StateManager.update_metadata { last_check := some 1 } none none
            none none 9)
          ((FeedMonitor.newEntriesOf
            (StateManager.update_metadata { last_check := some 1 } none none
              none none 9) entsC6).reverse.take
            (FeedMonitor.firstTrue (fun i => decide (1 ≤ i))
              (FeedMonitor.newEntriesOf
                (StateManager.update_metadata { last_check := some 1 } none
                  none none none 9) entsC6).length))).marks :=
  C6_oldest_first_shutdown _ _ _ _ _ 9 _ _ _ rfl rfl rfl rfl

/-- C9: `updateMetadata` leaves `processed_entries` unchanged, and
`incrementError` leaves `processed_entries`, `etag`, `last_modified` (and
the cached title/link) unchanged — each operation mutates only the fields
it is specified to touch. -/
theorem C9_frame_conditions (s : FeedState) (etag lm ft fl : Option String)
    (now now2 : Nat) :
    (StateManager.update_metadata s etag lm ft fl now).processed_entries
        = s.processed_entries
    ∧ (StateManager.increment_error s now2).processed_entries
        = s.processed_entries
    ∧ (StateManager.increment_error s now2).etag = s.etag
    ∧ (StateManager.increment_error s now2).last_modified = s.last_modified
    ∧ (StateManager.increment_error s now2).feed_title = s.feed_title
    ∧ (StateManager.increment_error s now2).feed_link = s.feed_link :=
  ⟨rfl, rfl, rfl, rfl, rfl, rfl⟩

/-! ## C5: fetch-failure backoff -/

/-- One scheduler iteration on a feed configured with `check_interval =
120` whose fetch raises (and with benign collaborators otherwise). -/
def fetchFailIter (s : FeedState) : FeedState × Nat :=
  FeedMonitor.monitor_iteration (some 120) s (.error ()) (fun _ => false)
    (fun _ => .ok) (fun _ => false) 7

/-- The feed state after `n` consecutive fetch-failure iterations starting
from a fresh state. -/
def fetchFailStates : Nat → FeedState
  | 0 => FeedState.empty
  | n + 1 => (fetchFailIter (fetchFailStates n)).1

/-- On any fetch failure the `except` branch of `_monitor_feed_loop` is
not reached — the exception is caught inside `_check_feed` — so the sleep
is always the configured interval, whatever the error count. -/
theorem monitor_iteration_fetch_failure_sleep (ci : Option Nat)
    (s : FeedState) (filt : String → Bool) (outc : String → SendOutcome)
    (shutdown : Nat → Bool) (now : Nat) :
    (FeedMonitor.monitor_iteration ci s (.error ()) filt outc shutdown
      now).2 = FeedMonitor.effectiveInterval ci := rfl

/-- C5 (observed code behaviour, contradicting the claim): with configured
interval 120, the sleep chosen after the 5th consecutive fetch failure is
120 — not 600 — even though the persisted error count has reached 5, and
it stays 120 on later failures; fetch exceptions are caught inside
`_check_feed` (monitor.py:215-218), so the `error_count >= 5` floor of
`_monitor_feed_loop`'s exception handler (monitor.py:187-193) never runs
for them. -/
theorem C5_fetch_failure_backoff_not_applied :
    (fetchFailStates 4).error_count = 4
    ∧ (fetchFailIter (fetchFailStates 4)).2 = 120
    ∧ (fetchFailStates 5).error_count = 5
    ∧ (fetchFailIter (fetchFailStates 5)).2 = 120
    ∧ (fetchFailIter (fetchFailStates 5)).2 ≠ 600 := by decide

/-- C10: for a state whose `processed_entries` list has at most 100
entries, `from_dict ∘ to_dict` is the identity — the persisted layout
round-trips the de-duplication history, validators, error count,
timestamp and cached title/link exactly. -/
theorem C10_persistence_roundtrip (s : FeedState)
    (h : s.processed_entries.length ≤ 100) :
    FeedState.from_dict (FeedState.to_dict s) = s := by
  obtain ⟨lc, pe, et, lm, ec, ft, fl⟩ := s
  simp only [FeedState.to_dict, FeedState.from_dict,
    MAX_PROCESSED_ENTRIES_PER_FEED] at h ⊢
  have hnot : ¬ pe.length > 100 := by simpa using h
  simp only [hnot, ite_false]
  cases lc <;> simp

/-- Witness for C10 at a concrete populated state. -/
theorem C10_persistence_roundtrip_witness :
    FeedState.from_dict (FeedState.to_dict
      { last_check := some 3, processed_entries := ["a", "b"],
        etag := some "e", last_modified := some "m", error_count := 2,
        feed_title := some "t", feed_link := some "l" })
      = { last_check := some 3, processed_entries := ["a", "b"],
          etag := some "e", last_modified := some "m", error_count := 2,
          feed_title := some "t", feed_link := some "l" } :=
  C10_persistence_roundtrip _ (by decide)

/-! ## C7: message-length enforcement -/

/-- A 1000-character link. -/
def longLink : String := String.mk (List.replicate 1000 'u')

/-- An entry with one image (so the caption-class limit 1024 applies), a
short title and a long link. -/
def overLimitEntry : Entry :=
  { title := "t", link := longLink, content := "", guid := "g",
    published := 0, images := ["i"] }

/-- A rendered message longer than the caption limit. -/
def overLimitMessage : String := String.mk (List.replicate 1025 'm')

set_option maxRecDepth 100000 in
/-- C7 counterexample: for this media entry the applicable limit is 1024,
yet the text handed to the transport is 1037 characters long — the final
fallback truncates the title to `limit - 50` characters but then appends
36 characters of markup plus the full link, so a long link pushes the
message over the limit. -/
theorem C7_counterexample_over_limit :
    FeedMonitor.hasMedia overLimitEntry = true
    ∧ FeedMonitor.applicableLimit overLimitEntry = 1024
    ∧ (FeedMonitor.send_text overLimitEntry overLimitMessage).length = 1037
    ∧ (FeedMonitor.send_text overLimitEntry overLimitMessage).length
        > FeedMonitor.applicableLimit overLimitEntry := by decide

/-- C7 amended: the text handed to the transport fits the applicable
limit (1024 with media, 4096 text-only) whenever the entry's link is at
most 14 characters long; the final fallback truncates the title to
`limit - 50` characters, which together with the 36 characters of fixed
markup leaves exactly 14 characters of headroom for the link. -/
theorem C7_amended_length_bound (e : Entry) (message : String)
    (hlink : e.link.length ≤ 14) :
    (FeedMonitor.send_text e message).length
      ≤ FeedMonitor.applicableLimit e := by
  have hL : 50 ≤ FeedMonitor.applicableLimit e := by
    unfold FeedMonitor.applicableLimit
    split <;> simp [MAX_CAPTION_LENGTH, MAX_MESSAGE_LENGTH]
  unfold FeedMonitor.send_text
  dsimp only
  split
  case isTrue h1 =>
    split
    case isTrue h2 =>
      have hsl : (FeedMonitor.strSlice (escape_html e.title)
          (FeedMonitor.applicableLimit e - 50)).length
          ≤ FeedMonitor.applicableLimit e - 50 := by
        have hrl : (FeedMonitor.strSlice (escape_html e.title)
            (FeedMonitor.applicableLimit e - 50)).length
            = ((escape_html e.title).data.take
                (FeedMonitor.applicableLimit e - 50)).length := rfl
        rw [hrl, List.length_take]
        exact Nat.min_le_left _ _
      simp only [String.length_append]
      have l1 : ("<b>" : String).length = 3 := rfl
      have l2 : ("...</b>\n\n<a href=\x27" : String).length = 18 := rfl
      have l3 : ("\x27>Read more</a>" : String).length = 15 := rfl
      omega
    case isFalse h2 => omega
  case isFalse h1 => omega

/-- Witness for C7 amended: a text-only entry with a 6-character link. -/
theorem C7_amended_length_bound_witness :
    (FeedMonitor.send_text
      { title := "t", link := "l.co/x", content := "", guid := "g",
        published := 0 }
      "hello").length
      ≤ FeedMonitor.applicableLimit
          { title := "t", link := "l.co/x", content := "", guid := "g",
            published := 0 } :=
  C7_amended_length_bound _ "hello" (by decide)

/-! ## C8: the rate limiter's domain key -/

/-- C8 counterexample: `"http://example.com/a"` and
`"http://example.com:8080/b"` share the host `example.com` yet map to the
different keys `"example.com"` and `"example.com:8080"` (the key is the
netloc, which includes the port); and the schemeless addresses
`"example.com/feed"` and `"other.com/feed"` have different hosts yet both
map to the key `""` (no `//`-delimited authority, so the netloc is
empty). -/
theorem C8_counterexample_host_vs_netloc :
    DomainRateLimiter.get_domain "http://example.com/a"
        ≠ DomainRateLimiter.get_domain "http://example.com:8080/b"
    ∧ DomainRateLimiter.get_domain "http://example.com:8080/b"
        = "example.com:8080"
    ∧ DomainRateLimiter.get_domain "example.com/feed"
        = DomainRateLimiter.get_domain "other.com/feed" := by decide

/-- C8 amended: the rate limiter's key is the lowercased netloc
(authority) component — optional userinfo, host and optional port — not
the bare host: parsing success yields the lowercased netloc (empty when
the address has no `//`-delimited authority), parse failure falls back to
the full address string, and two addresses with the same netloc map to
the same key. -/
theorem C8_amended_netloc_key (u1 u2 : String) :
    (DomainRateLimiter.parseRaises u1 = false →
      DomainRateLimiter.get_domain u1
        = String.mk ((DomainRateLimiter.netlocOf u1).map Char.toLower))
    ∧ (DomainRateLimiter.parseRaises u1 = true →
      DomainRateLimiter.get_domain u1 = u1)
    ∧ (DomainRateLimiter.netlocOf u1 = DomainRateLimiter.netlocOf u2 →
      DomainRateLimiter.parseRaises u1 = false →
      DomainRateLimiter.parseRaises u2 = false →
      DomainRateLimiter.get_domain u1 = DomainRateLimiter.get_domain u2) := by
  refine ⟨?_, ?_, ?_⟩
  · intro h
    unfold DomainRateLimiter.get_domain
    simp [h]
  · intro h
    unfold DomainRateLimiter.get_domain
    simp [h]
  · intro hnet h1 h2
    unfold DomainRateLimiter.get_domain
    simp [h1, h2, hnet]

/-- Witness for C8 amended: two addresses differing in scheme, case and
path but sharing the netloc `Site.com` get the same key. -/
theorem C8_amended_netloc_key_witness :
    DomainRateLimiter.get_domain "http://Site.com/a"
      = String.mk ((DomainRateLimiter.netlocOf "http://Site.com/a").map
          Char.toLower)
    ∧ DomainRateLimiter.get_domain "http://[bad"
      = "http://[bad"
    ∧ DomainRateLimiter.get_domain "http://Site.com/a"
      = DomainRateLimiter.get_domain "https://Site.com/b?q=1" :=
  ⟨(C8_amended_netloc_key "http://Site.com/a" "x").1 (by decide),
   (C8_amended_netloc_key "http://[bad" "x").2.1 (by decide),
   (C8_amended_netloc_key "http://Site.com/a" "https://Site.com/b?q=1").2.2
     (by decide) (by decide) (by decide)⟩

end RssEngine
